import Mathlib

/-!
# Verification of the dashboard aggregation engine

Shallow embedding of `useSystemValidation` (the real-time metrics hook) and
of the M-Pesa STK-push POST route handler, together with theorems settling
the specification's claims about them.

JavaScript conventions embedded explicitly:
* a missing field is `Option.none`; `x || y || 0` on numbers treats `0`
  (and `undefined`) as falsy;
* `new Date()` timestamps are abstracted as a strictly increasing tick;
* asynchronous delivery is modelled as a sequential stream of events
  (the hook runs on a single logical execution context).
-/

/-- A document of the `bookings` collection.  All fields other than the id may
be absent on a stored document. -/
structure Booking where
  id : String
  date : Option String
  status : Option String
  revenue : Option Int
  price : Option Int
deriving Repr, DecidableEq

/-- A document of the `conversations` collection. -/
structure Conversation where
  id : String
  unreadCount : Option Nat
deriving Repr, DecidableEq

/-- A document of the `clients` collection (only its existence is used). -/
structure Client where
  id : String
deriving Repr, DecidableEq

/-- The `SystemStats` record held in the hook's `stats` state. -/
structure SystemStats where
  todaysBookings : Nat
  pendingMessages : Nat
  activeCustomers : Nat
  revenueToday : Int
  lastUpdate : Nat
deriving Repr, DecidableEq

/-- JavaScript `y || 0` for an optional number: `undefined` and `0` are falsy. -/
def numOrZero : Option Int → Int
  | none => 0
  | some y => if y = 0 then 0 else y

/-- `booking.revenue || booking.price || 0`: the amount a booking contributes,
with JavaScript falsiness (a present but zero `revenue` falls through to
`price`). -/
def bookingAmount (b : Booking) : Int :=
  match b.revenue with
  | some r => if r = 0 then numOrZero b.price else r
  | none => numOrZero b.price

/-- `booking.status === "completed"`. -/
def isCompleted (b : Booking) : Bool :=
  b.status == some "completed"

/-- `booking.date === d` (an absent date is never equal to a string). -/
def onDate (d : String) (b : Booking) : Bool :=
  b.date == some d

/-- `bookings.filter(b => b.date === d)`. -/
def todaysOf (d : String) (l : List Booking) : List Booking :=
  l.filter (onDate d)

/-- `bookings.filter(b => b.status === "completed")`. -/
def completedOf (l : List Booking) : List Booking :=
  l.filter isCompleted

/-- `completed.reduce((sum, b) => sum + (b.revenue || b.price || 0), 0)`. -/
def revenueReduce (l : List Booking) : Int :=
  l.foldl (fun s b => s + bookingAmount b) 0

/-- `conv.unreadCount || 0` (for a natural number, JavaScript `n || 0` is `n`). -/
def unreadOrZero (c : Conversation) : Nat :=
  match c.unreadCount with
  | none => 0
  | some n => n

/-- `conversations.reduce((sum, c) => sum + (c.unreadCount || 0), 0)`. -/
def pendingReduce (l : List Conversation) : Nat :=
  l.foldl (fun s c => s + unreadOrZero c) 0

/-- The value the spec claims a booking contributes to `revenueToday`:
`revenue` if present, else `price` if present, else 0 (no falsiness). -/
def claimedBookingValue (b : Booking) : Int :=
  match b.revenue with
  | some r => r
  | none =>
    match b.price with
    | some p => p
    | none => 0

/-- The spec's claimed revenue: sum of `claimedBookingValue` over the bookings
of day `D` with status `completed`. -/
def claimedRevenue (B : List Booking) (D : String) : Int :=
  ((B.filter (fun b => onDate D b && isCompleted b)).map claimedBookingValue).sum

/-- The amended per-booking value: `revenue` if present and nonzero, else
`price` if present and nonzero, else 0 (JavaScript truthiness made explicit). -/
def amendedBookingValue (b : Booking) : Int :=
  match b.revenue with
  | some r =>
    if r = 0 then
      match b.price with
      | some p => if p = 0 then 0 else p
      | none => 0
    else r
  | none =>
    match b.price with
    | some p => if p = 0 then 0 else p
    | none => 0

/-- The amended revenue: sum of `amendedBookingValue` over the bookings of day
`D` with status `completed`. -/
def amendedRevenue (B : List Booking) (D : String) : Int :=
  ((B.filter (fun b => onDate D b && isCompleted b)).map amendedBookingValue).sum

/-- The spec's claimed pending-message total: sum of `unreadCount` over all
conversations, a missing count contributing 0. -/
def claimedPending (C : List Conversation) : Nat :=
  (C.map unreadOrZero).sum

/-! ## ValidationRunner: the one-shot `runValidation` bootstrap -/

/-- The data returned by the three `getDocs` fetches of `runValidation`: the
bookings query is filtered server-side by `date == today`, the other two are
unfiltered. -/
structure Fetched where
  todaysBookingDocs : List Booking
  conversationDocs : List Conversation
  clientDocs : List Client
deriving Repr, DecidableEq

/-- A toast emitted by the hook. -/
inductive Toast where
  | success (msg : String)
  | failure (msg : String)
deriving Repr, DecidableEq

/-- The state touched by the validation effect: the `stats` record, the
`isValidated` latch, and two instrumentation counters (how many times the
fetch sequence started, how many times a result was published). -/
structure VState where
  stats : SystemStats
  isValidated : Bool
  fetchRuns : Nat
  publishes : Nat
deriving Repr, DecidableEq

/-- The body of `runValidation`: the `try` block fetches (outcome supplied as
an `Except`, the thrown error's message on failure), computes the four
metrics, publishes them via `setStats`, sets the latch via
`setIsValidated(true)` and emits the success toast; the `catch` block leaves
all state in place and emits the failure toast.  Always returns normally:
nothing propagates to the caller. -/
def runValidation (s : VState) (fetched : Except String Fetched) :
    VState × Toast :=
  match fetched with
  | .error e =>
    ({ s with fetchRuns := s.fetchRuns + 1 },
      .failure ("System validation failed: " ++ e))
  | .ok d =>
    let bookings := d.todaysBookingDocs
    let completedBookings := completedOf bookings
    let revenue := revenueReduce completedBookings
    let pendingMessages := pendingReduce d.conversationDocs
    let activeCustomers := d.clientDocs.length
    let newStats : SystemStats :=
      { todaysBookings := bookings.length
        pendingMessages := pendingMessages
        activeCustomers := activeCustomers
        revenueToday := revenue
        lastUpdate := s.stats.lastUpdate + 1 }
    ({ stats := newStats
       isValidated := true
       fetchRuns := s.fetchRuns + 1
       publishes := s.publishes + 1 },
      .success ("✅ System Validated: " ++ toString newStats.todaysBookings
        ++ " bookings, " ++ toString newStats.pendingMessages
        ++ " messages, " ++ toString newStats.activeCustomers
        ++ " customers, Ksh" ++ toString newStats.revenueToday ++ " revenue"))

/-- One firing of the validation effect: the auth flags at that moment and,
for the runs that get past the guard, the outcome of the fetches. -/
structure VTrigger where
  isAdmin : Bool
  user : Bool
  fetched : Except String Fetched
deriving Repr

/-- The validation effect: `if (!isAdmin || !user || isValidated) return;`
then (after the settle delay) `runValidation`. -/
def vStep (s : VState) (e : VTrigger) : VState :=
  if !e.isAdmin || !e.user || s.isValidated then s
  else (runValidation s e.fetched).1

/-- Any number of re-firings of the validation effect within one session. -/
def vRun (s : VState) (es : List VTrigger) : VState :=
  es.foldl vStep s

/-! ## FeedCoordinator / DayWindow / MidnightScheduler: the listener effect

State of the second `useEffect`: the closure variables `currentDate` and
`midnightTimer`, the `stats` record, and bookkeeping for pending `setTimeout`
timers and the in-flight midnight `getDocs` promise.  `pendingTimers` is the
list of armed-and-not-yet-cleared timer ids (so "at most one pending timer"
is a provable property, not one baked into the model), `midnightTimer` the id
currently stored in the closure variable of that name. -/

structure LState where
  stats : SystemStats
  currentDate : String
  midnightTimer : Nat
  pendingTimers : List Nat
  nextTimerId : Nat
  midnightFetchInFlight : Bool
  unsubscribed : Bool
deriving Repr, DecidableEq

/-- `setupMidnightReset()`: arm a fresh one-shot timer and store its id in
`midnightTimer`. -/
def setupMidnightReset (s : LState) : LState :=
  { s with midnightTimer := s.nextTimerId
           pendingTimers := s.pendingTimers ++ [s.nextTimerId]
           nextTimerId := s.nextTimerId + 1 }

/-- `clearTimeout(midnightTimer)`: a cleared timer never fires; clearing an
already-fired or already-cleared id is a no-op. -/
def clearMidnightTimer (s : LState) : LState :=
  { s with pendingTimers := s.pendingTimers.erase s.midnightTimer }

/-- The shared tail of the bookings-subscription callback and of the midnight
refetch continuation: filter the full booking set by `currentDate`, keep the
completed ones, reduce the revenue, and merge `todaysBookings`,
`revenueToday` and a fresh `lastUpdate` into `stats` (a `setStats(prev =>
({...prev, ...}))` functional update). -/
def mergeBookingStats (s : LState) (allBookings : List Booking) : LState :=
  let todaysBookings := todaysOf s.currentDate allBookings
  let completedBookings := completedOf todaysBookings
  let revenue := revenueReduce completedBookings
  { s with stats := { s.stats with todaysBookings := todaysBookings.length
                                   revenueToday := revenue
                                   lastUpdate := s.stats.lastUpdate + 1 } }

/-- The asynchronous events delivered to the listener effect.  `snap` is a
bookings `onSnapshot` callback carrying `getToday()` at delivery time and the
full booking set; `convSnap` and `clientSnap` are the other two snapshot
callbacks; `fire` is a `setTimeout` firing (the id of the timer and
`getToday()` at fire time); `fetchDone` is the resolution of the midnight
`getDocs` promise; `teardown` is the effect cleanup. -/
inductive LEv where
  | snap (wallDate : String) (allBookings : List Booking)
  | convSnap (convs : List Conversation)
  | clientSnap (clients : List Client)
  | fire (id : Nat) (wallDate : String)
  | fetchDone (allBookings : List Booking)
  | teardown
deriving Repr, DecidableEq

/-- One event of the listener effect, exactly as the source handles it:

* a subscription callback after `unsubscribe()` never runs (Firestore drops
  it), so `snap`/`convSnap`/`clientSnap` are no-ops once `unsubscribed`;
* `snap` recomputes `getToday()`; on a date change it adopts the new date,
  clears the pending midnight timer and re-arms it, then merges the booking
  stats for the (possibly new) `currentDate`;
* `fire` only runs if its timer id is still pending (a cleared timeout never
  fires); it consumes the timer, sets `currentDate = getToday()` and starts
  the `getDocs` refetch — teardown does NOT gate it, because `clearTimeout`
  at teardown only clears the id then stored in `midnightTimer`;
* `fetchDone` is a promise continuation: nothing cancels it, so it runs even
  after teardown, merging stats for the current `currentDate` and calling
  `setupMidnightReset()` again;
* `teardown` runs `clearTimeout(midnightTimer)` and the three
  `unsubscribe` handles. -/
def lStep (s : LState) : LEv → LState
  | .snap wallDate allBookings =>
    if s.unsubscribed then s
    else
      let s1 :=
        if wallDate == s.currentDate then s
        else setupMidnightReset
          (clearMidnightTimer { s with currentDate := wallDate })
      mergeBookingStats s1 allBookings
  | .convSnap convs =>
    if s.unsubscribed then s
    else
      { s with stats := { s.stats with
          pendingMessages := pendingReduce convs
          lastUpdate := s.stats.lastUpdate + 1 } }
  | .clientSnap clients =>
    if s.unsubscribed then s
    else
      { s with stats := { s.stats with
          activeCustomers := clients.length
          lastUpdate := s.stats.lastUpdate + 1 } }
  | .fire id wallDate =>
    if id ∈ s.pendingTimers then
      { s with pendingTimers := s.pendingTimers.erase id
               currentDate := wallDate
               midnightFetchInFlight := true }
    else s
  | .fetchDone allBookings =>
    if s.midnightFetchInFlight then
      setupMidnightReset
        (mergeBookingStats { s with midnightFetchInFlight := false }
          allBookings)
    else s
  | .teardown =>
    { clearMidnightTimer s with unsubscribed := true }

/-- A whole delivery schedule of listener events. -/
def lRun (s : LState) (es : List LEv) : LState :=
  es.foldl lStep s

/-! ## The STK-push POST route handler -/

/-- A JSON value as destructured from the request body (`undefined` stands
for a missing key). -/
inductive JsVal where
  | undef
  | nullv
  | num (n : Int)
  | str (s : String)
  | boolean (b : Bool)
deriving Repr, DecidableEq

/-- JavaScript truthiness of a `JsVal`. -/
def truthy : JsVal → Bool
  | .undef => false
  | .nullv => false
  | .num n => n != 0
  | .str s => s != ""
  | .boolean b => b

/-- The three fields destructured from `await request.json()`. -/
structure StkBody where
  phoneNumber : JsVal
  amount : JsVal
  accountRef : JsVal
deriving Repr, DecidableEq

/-- A thrown JavaScript error as the handler sees it: its `message` property,
which may be absent (or the empty string). -/
structure JsError where
  message : Option String
deriving Repr, DecidableEq

/-- `error.message || "Internal Server Error"`: an absent message and an
empty-string message are both falsy. -/
def errorText (e : JsError) : String :=
  match e.message with
  | some m => if m = "" then "Internal Server Error" else m
  | none => "Internal Server Error"

/-- What the `POST` handler returned: the HTTP status, the `error` field of
the JSON body when one is present, and whether `initiateStkPush` was
invoked. -/
structure ApiResponse where
  status : Nat
  errorField : Option String
  calledInitiate : Bool
deriving Repr, DecidableEq

/-- The `POST` handler of `src/app/api/mpesa/stkpush/route.ts`.  `body` is the
outcome of `await request.json()` (an `Except` carrying the thrown error) and
`initiateStkPush` the external payment call, which may also throw; both kinds
of throw land in the one `catch`, which answers 500 with
`error.message || "Internal Server Error"`. -/
def POST (body : Except JsError StkBody)
    (initiateStkPush : StkBody → Except JsError String) : ApiResponse :=
  match body with
  | .error e =>
    { status := 500, errorField := some (errorText e), calledInitiate := false }
  | .ok b =>
    if !truthy b.phoneNumber || !truthy b.amount || !truthy b.accountRef then
      { status := 400
        errorField := some "Missing required fields (phoneNumber, amount, accountRef)"
        calledInitiate := false }
    else
      match initiateStkPush b with
      | .ok _ => { status := 200, errorField := none, calledInitiate := true }
      | .error e =>
        { status := 500, errorField := some (errorText e), calledInitiate := true }

/-! ## Concrete fixtures -/

/-- An all-zero `SystemStats`, as initialised by `useState`. -/
def zeroStats : SystemStats :=
  { todaysBookings := 0, pendingMessages := 0, activeCustomers := 0
    revenueToday := 0, lastUpdate := 0 }

/-- A freshly set-up listener state: one armed midnight timer, nothing in
flight, subscriptions live. -/
def baseL : LState :=
  { stats := zeroStats, currentDate := "2024-01-01", midnightTimer := 0
    pendingTimers := [0], nextTimerId := 1, midnightFetchInFlight := false
    unsubscribed := false }

/-- A completed booking whose `revenue` field is present with value `0` and
whose `price` is `200`. -/
def zeroRevenueBooking : Booking :=
  { id := "b1", date := some "2024-01-01", status := some "completed"
    revenue := some 0, price := some 200 }

/-- The spec's concrete booking scenario. -/
def scenarioBookings : List Booking :=
  [ { id := "s1", date := some "2024-01-01", status := some "completed"
      revenue := some 500, price := none },
    { id := "s2", date := some "2024-01-01", status := some "pending"
      revenue := some 300, price := none },
    { id := "s3", date := some "2024-01-02", status := some "completed"
      revenue := none, price := some 200 } ]

/-- The spec's concrete conversation scenario. -/
def scenarioConvs : List Conversation :=
  [ { id := "c1", unreadCount := some 3 },
    { id := "c2", unreadCount := some 0 },
    { id := "c3", unreadCount := some 5 } ]

/-- A fresh validation state: zero stats, latch unset. -/
def vBase : VState :=
  { stats := zeroStats, isValidated := false, fetchRuns := 0, publishes := 0 }

/-- A trigger whose fetches succeed on the scenario data. -/
def trigOk : VTrigger :=
  { isAdmin := true, user := true
    fetched := Except.ok ⟨scenarioBookings, scenarioConvs, []⟩ }

/-- An already-validated state. -/
def vDone : VState := { vBase with isValidated := true }

/-- Erase `lastUpdate`, the field the claim ignores. -/
def statsNoLU (st : SystemStats) : SystemStats :=
  { st with lastUpdate := 0 }

/-- The amended error body text: the thrown error's message when it is
present and non-empty, else `"Internal Server Error"`. -/
def amendedErrorText (m : Option String) : String :=
  match m with
  | some t => if t = "" then "Internal Server Error" else t
  | none => "Internal Server Error"

/-- A payment call that always succeeds. -/
def initiateOk : StkBody → Except JsError String :=
  fun _ => Except.ok "queued"

/-- A request body whose `amount` is the falsy number `0`. -/
def stkZeroAmountBody : StkBody :=
  { phoneNumber := JsVal.str "254712345678"
    amount := JsVal.num 0
    accountRef := JsVal.str "BK-1" }

/-- A request body with all three required fields truthy. -/
def stkTruthyBody : StkBody :=
  { phoneNumber := JsVal.str "254712345678"
    amount := JsVal.num 100
    accountRef := JsVal.str "BK-1" }

/-- A payment call that throws an error without a `message`. -/
def initiateThrowNoMessage : StkBody → Except JsError String :=
  fun _ => Except.error { message := none }

/-! ## Helper lemmas -/

/-- A left fold accumulating `+ f b` is the starting value plus the sum of the
mapped list. -/
theorem foldl_add_map_sum {α M : Type} [AddCommMonoid M] (f : α → M)
    (l : List α) (n : M) :
    l.foldl (fun s b => s + f b) n = n + (l.map f).sum := by
  induction l generalizing n with
  | nil => simp
  | cons a t ih => simp [ih, add_assoc]

/-- `revenueReduce` is the sum of `bookingAmount` over the list. -/
theorem revenueReduce_eq_sum (l : List Booking) :
    revenueReduce l = (l.map bookingAmount).sum := by
  simpa [revenueReduce] using foldl_add_map_sum bookingAmount l 0

/-- `pendingReduce` is the sum of `unreadOrZero` over the list. -/
theorem pendingReduce_eq_sum (l : List Conversation) :
    pendingReduce l = (l.map unreadOrZero).sum := by
  simpa [pendingReduce] using foldl_add_map_sum unreadOrZero l 0

/-- Filtering by date and then by completion status is one filter by the
conjunction. -/
theorem completedOf_todaysOf (d : String) (B : List Booking) :
    completedOf (todaysOf d B) =
      B.filter (fun b => onDate d b && isCompleted b) := by
  induction B with
  | nil => rfl
  | cons a t ih =>
    simp only [todaysOf, completedOf, List.filter_cons] at *
    cases hp : onDate d a <;> cases hq : isCompleted a <;>
      simp [List.filter_cons, hp, hq, ih]

/-- The JavaScript `||` chain agrees with the amended per-booking value. -/
theorem bookingAmount_eq_amendedBookingValue (b : Booking) :
    bookingAmount b = amendedBookingValue b := by
  cases hr : b.revenue <;> cases hp : b.price <;>
    simp [bookingAmount, amendedBookingValue, numOrZero, hr, hp]

/-- The revenue the listener-path code computes from the full booking set `B`
and the day `d` is the amended revenue of the claim. -/
theorem revenueReduce_filter_eq_amended (d : String) (B : List Booking) :
    revenueReduce (completedOf (todaysOf d B)) = amendedRevenue B d := by
  rw [completedOf_todaysOf, revenueReduce_eq_sum, amendedRevenue]
  exact congrArg List.sum
    (List.map_congr_left fun b _ => bookingAmount_eq_amendedBookingValue b)

/-! ## C1: the revenueToday formula -/

/-- C1 counterexample: a completed booking on the current day whose `revenue`
field is present with value `0` and whose `price` is `200` contributes `200`
(the code's `revenue || price || 0` treats the present zero as falsy), not
the `0` the claim requires, so the computed `revenueToday` differs from the
claimed sum. -/
theorem revenueToday_claimed_counterexample :
    (lStep baseL (LEv.snap "2024-01-01" [zeroRevenueBooking])).stats.revenueToday
        = 200 ∧
    claimedRevenue [zeroRevenueBooking] "2024-01-01" = 0 ∧
    (lStep baseL (LEv.snap "2024-01-01" [zeroRevenueBooking])).stats.revenueToday
        ≠ claimedRevenue [zeroRevenueBooking] "2024-01-01" := by
  refine ⟨by decide, by decide, by decide⟩

/-- C1 (amended): at all three computation sites — the bookings-subscription
callback, the midnight refetch continuation, and the one-shot validation —
`revenueToday` equals the sum, over bookings of the current day with status
`completed`, of `revenue` if present and nonzero, else `price` if present
and nonzero, else 0. -/
theorem revenueToday_amended_invariant (s t : LState) (v : VState)
    (B : List Booking) (d : String) (cs : List Conversation) (cl : List Client)
    (hsub : s.unsubscribed = false) (hin : t.midnightFetchInFlight = true) :
    (lStep s (LEv.snap d B)).stats.revenueToday = amendedRevenue B d ∧
    (lStep t (LEv.fetchDone B)).stats.revenueToday
        = amendedRevenue B t.currentDate ∧
    ((runValidation v (Except.ok ⟨todaysOf d B, cs, cl⟩)).1).stats.revenueToday
        = amendedRevenue B d := by
  refine ⟨?_, ?_, ?_⟩
  · simp only [lStep, hsub, if_false, Bool.false_eq_true]
    by_cases h : (d == s.currentDate) = true
    · have hd : d = s.currentDate := eq_of_beq h
      simp [h, mergeBookingStats, ← hd, revenueReduce_filter_eq_amended]
    · simp [h, mergeBookingStats, setupMidnightReset, clearMidnightTimer,
        revenueReduce_filter_eq_amended]
  · simp [lStep, hin, setupMidnightReset, mergeBookingStats,
      revenueReduce_filter_eq_amended]
  · simp [runValidation, revenueReduce_filter_eq_amended]

/-- Witness for C1 (amended) at the concrete scenario data. -/
theorem revenueToday_amended_invariant_witness :
    (lStep baseL (LEv.snap "2024-01-01" scenarioBookings)).stats.revenueToday
        = amendedRevenue scenarioBookings "2024-01-01" ∧
    (lStep { baseL with midnightFetchInFlight := true }
        (LEv.fetchDone scenarioBookings)).stats.revenueToday
        = amendedRevenue scenarioBookings
            ({ baseL with midnightFetchInFlight := true } : LState).currentDate ∧
    ((runValidation vBase (Except.ok
        ⟨todaysOf "2024-01-01" scenarioBookings, [], []⟩)).1).stats.revenueToday
        = amendedRevenue scenarioBookings "2024-01-01" :=
  revenueToday_amended_invariant baseL { baseL with midnightFetchInFlight := true }
    vBase scenarioBookings "2024-01-01" [] [] rfl rfl

/-! ## C2: the todaysBookings count -/

/-- C2: `todaysBookings` is the number of bookings dated the current day,
irrespective of status, at the subscription, midnight and validation sites;
and on the spec's concrete scenario the subscription callback computes
`todaysBookings = 2` and `revenueToday = 500`. -/
theorem todaysBookings_count_invariant (s t : LState) (v : VState)
    (B : List Booking) (d : String) (cs : List Conversation) (cl : List Client)
    (hsub : s.unsubscribed = false) (hin : t.midnightFetchInFlight = true) :
    (lStep s (LEv.snap d B)).stats.todaysBookings
        = (B.filter (fun b => onDate d b)).length ∧
    (lStep t (LEv.fetchDone B)).stats.todaysBookings
        = (B.filter (fun b => onDate t.currentDate b)).length ∧
    ((runValidation v (Except.ok ⟨todaysOf d B, cs, cl⟩)).1).stats.todaysBookings
        = (B.filter (fun b => onDate d b)).length ∧
    (lStep baseL (LEv.snap "2024-01-01" scenarioBookings)).stats.todaysBookings
        = 2 ∧
    (lStep baseL (LEv.snap "2024-01-01" scenarioBookings)).stats.revenueToday
        = 500 := by
  refine ⟨?_, ?_, ?_, by decide, by decide⟩
  · simp only [lStep, hsub, if_false, Bool.false_eq_true]
    by_cases h : (d == s.currentDate) = true
    · have hd : d = s.currentDate := eq_of_beq h
      simp [h, mergeBookingStats, ← hd, todaysOf]
    · simp [h, mergeBookingStats, setupMidnightReset, clearMidnightTimer,
        todaysOf]
  · simp [lStep, hin, setupMidnightReset, mergeBookingStats, todaysOf]
  · simp [runValidation, todaysOf]

/-- Witness for C2 at the concrete scenario data. -/
theorem todaysBookings_count_invariant_witness :
    (lStep baseL (LEv.snap "2024-01-01" scenarioBookings)).stats.todaysBookings
        = (scenarioBookings.filter (fun b => onDate "2024-01-01" b)).length ∧
    (lStep { baseL with midnightFetchInFlight := true }
        (LEv.fetchDone scenarioBookings)).stats.todaysBookings
        = (scenarioBookings.filter (fun b =>
            onDate ({ baseL with midnightFetchInFlight := true } : LState).currentDate b)).length ∧
    ((runValidation vBase (Except.ok
        ⟨todaysOf "2024-01-01" scenarioBookings, [], []⟩)).1).stats.todaysBookings
        = (scenarioBookings.filter (fun b => onDate "2024-01-01" b)).length ∧
    (lStep baseL (LEv.snap "2024-01-01" scenarioBookings)).stats.todaysBookings
        = 2 ∧
    (lStep baseL (LEv.snap "2024-01-01" scenarioBookings)).stats.revenueToday
        = 500 :=
  todaysBookings_count_invariant baseL { baseL with midnightFetchInFlight := true }
    vBase scenarioBookings "2024-01-01" [] [] rfl rfl

/-! ## C3: the isValidated latch -/

/-- One firing of the validation effect preserves the quantity
`publishes + (1 if the latch is unset)`: a skipped run changes nothing, a
failed run publishes nothing and leaves the latch unset, and a successful
run publishes once while setting the latch. -/
theorem vStep_publish_budget (s : VState) (e : VTrigger) :
    (vStep s e).publishes + (if (vStep s e).isValidated then 0 else 1)
      = s.publishes + (if s.isValidated then 0 else 1) := by
  by_cases hg : (!e.isAdmin || !e.user || s.isValidated) = true
  · simp [vStep, hg]
  · simp only [Bool.or_eq_true, Bool.not_eq_true'] at hg
    push_neg at hg
    obtain ⟨⟨ha, hu⟩, hv⟩ := hg
    cases hf : e.fetched with
    | error err => simp [vStep, runValidation, hf, ha, hu, hv]
    | ok d => simp [vStep, runValidation, hf, ha, hu, hv]

/-- C3: once the `isValidated` latch is set, any further firing of the
validation effect leaves the whole state untouched (no fetch, no publish);
and across any schedule of firings, the number of publishes grows by at most
one while the latch is unset and not at all once it is set. -/
theorem validation_latch_once (s : VState) (es : List VTrigger) :
    (s.isValidated = true → vRun s es = s) ∧
    (vRun s es).publishes ≤ s.publishes + (if s.isValidated then 0 else 1) := by
  induction es generalizing s with
  | nil =>
    refine ⟨fun _ => rfl, ?_⟩
    simp [vRun]
  | cons e t ih =>
    refine ⟨fun h => ?_, ?_⟩
    · have h1 : vStep s e = s := by simp [vStep, h]
      show vRun (vStep s e) t = s
      rw [h1]
      exact (ih s).1 h
    · show (vRun (vStep s e) t).publishes ≤ _
      calc (vRun (vStep s e) t).publishes
          ≤ (vStep s e).publishes + (if (vStep s e).isValidated then 0 else 1) :=
            (ih (vStep s e)).2
        _ = s.publishes + (if s.isValidated then 0 else 1) :=
            vStep_publish_budget s e

/-- Witness for C3: from a validated state one more trigger changes nothing,
and the publish budget bound holds there. -/
theorem validation_latch_once_witness :
    vRun vDone [trigOk] = vDone ∧
    (vRun vDone [trigOk]).publishes
      ≤ vDone.publishes + (if vDone.isValidated then 0 else 1) :=
  ⟨(validation_latch_once vDone [trigOk]).1 rfl,
    (validation_latch_once vDone [trigOk]).2⟩

/-! ## C4: teardown and late events -/

/-- C4 failing trace: the midnight timer fires and its `getDocs` refetch is
still in flight when teardown runs.  Teardown clears the (already fired)
timer and unsubscribes, leaving a quiescent state — but the promise
continuation still executes afterwards: it merges new values into `stats`
and calls `setupMidnightReset()`, arming a fresh timer after teardown
completed. -/
theorem teardown_late_continuation_bug :
    (lRun baseL [LEv.fire 0 "2024-01-02", LEv.teardown]).unsubscribed = true ∧
    (lRun baseL [LEv.fire 0 "2024-01-02", LEv.teardown]).pendingTimers = [] ∧
    (lRun baseL [LEv.fire 0 "2024-01-02", LEv.teardown]).stats = zeroStats ∧
    (lRun baseL [LEv.fire 0 "2024-01-02", LEv.teardown,
        LEv.fetchDone scenarioBookings]).pendingTimers = [1] ∧
    (lRun baseL [LEv.fire 0 "2024-01-02", LEv.teardown,
        LEv.fetchDone scenarioBookings]).stats.todaysBookings = 1 ∧
    (lRun baseL [LEv.fire 0 "2024-01-02", LEv.teardown,
        LEv.fetchDone scenarioBookings]).stats.revenueToday = 200 ∧
    (lRun baseL [LEv.fire 0 "2024-01-02", LEv.teardown,
        LEv.fetchDone scenarioBookings]).stats ≠ zeroStats := by
  refine ⟨by decide, by decide, by decide, by decide, by decide, by decide,
    by decide⟩

/-! ## C5: the day-boundary race -/

/-- C5: from a live state with exactly one armed midnight timer, when the
bookings subscription and the timer race to move the boundary to the same
new day `d`, every interleaving changes the boundary exactly once and keeps
at most one pending timer:

* subscription first: it adopts `d`, cancels the old timer and arms exactly
  one new one; the old timer can then never fire (its event is a no-op);
* timer first: it adopts `d` and consumes the timer; a subscription snapshot
  arriving second observes no date change and performs none of the
  boundary-change work (no clearing, no re-arming, no new timer id), whether
  it arrives before or after the refetch continuation, which re-arms exactly
  one timer. -/
theorem day_boundary_race (s : LState) (B B' : List Booking) (d : String)
    (hP : s.pendingTimers = [s.midnightTimer])
    (hlt : s.midnightTimer < s.nextTimerId)
    (hin : s.midnightFetchInFlight = false)
    (hsub : s.unsubscribed = false)
    (hd : d ≠ s.currentDate) :
    (lStep s (LEv.snap d B)).currentDate = d ∧
    (lStep s (LEv.snap d B)).pendingTimers = [s.nextTimerId] ∧
    lStep (lStep s (LEv.snap d B)) (LEv.fire s.midnightTimer d)
        = lStep s (LEv.snap d B) ∧
    (lStep s (LEv.fire s.midnightTimer d)).currentDate = d ∧
    (lStep s (LEv.fire s.midnightTimer d)).pendingTimers = [] ∧
    (lStep (lStep s (LEv.fire s.midnightTimer d)) (LEv.snap d B')).currentDate
        = d ∧
    (lStep (lStep s (LEv.fire s.midnightTimer d)) (LEv.snap d B')).pendingTimers
        = [] ∧
    (lStep (lStep s (LEv.fire s.midnightTimer d)) (LEv.snap d B')).nextTimerId
        = s.nextTimerId ∧
    (lStep (lStep (lStep s (LEv.fire s.midnightTimer d)) (LEv.snap d B'))
        (LEv.fetchDone B)).pendingTimers = [s.nextTimerId] ∧
    (lStep (lStep (lStep s (LEv.fire s.midnightTimer d)) (LEv.fetchDone B))
        (LEv.snap d B')).pendingTimers = [s.nextTimerId] ∧
    (lStep (lStep (lStep s (LEv.fire s.midnightTimer d)) (LEv.fetchDone B))
        (LEv.snap d B')).currentDate = d := by
  have hbeq : (d == s.currentDate) = false := beq_eq_false_iff_ne.mpr hd
  have hmem : s.midnightTimer ∈ s.pendingTimers := by
    rw [hP]; exact List.mem_singleton.mpr rfl
  have hne : s.midnightTimer ≠ s.nextTimerId := Nat.ne_of_lt hlt
  refine ⟨?_, ?_, ?_, ?_, ?_, ?_, ?_, ?_, ?_, ?_, ?_⟩ <;>
    simp [lStep, hsub, hbeq, hmem, hP, hin, hne, mergeBookingStats,
      setupMidnightReset, clearMidnightTimer]

/-- Witness for C5: the race run from the concrete fresh listener state, the
boundary moving from 2024-01-01 to 2024-01-02. -/
theorem day_boundary_race_witness :
    (lStep baseL (LEv.snap "2024-01-02" scenarioBookings)).currentDate
        = "2024-01-02" ∧
    (lStep baseL (LEv.snap "2024-01-02" scenarioBookings)).pendingTimers
        = [baseL.nextTimerId] ∧
    lStep (lStep baseL (LEv.snap "2024-01-02" scenarioBookings))
        (LEv.fire baseL.midnightTimer "2024-01-02")
        = lStep baseL (LEv.snap "2024-01-02" scenarioBookings) ∧
    (lStep baseL (LEv.fire baseL.midnightTimer "2024-01-02")).currentDate
        = "2024-01-02" ∧
    (lStep baseL (LEv.fire baseL.midnightTimer "2024-01-02")).pendingTimers
        = [] ∧
    (lStep (lStep baseL (LEv.fire baseL.midnightTimer "2024-01-02"))
        (LEv.snap "2024-01-02" scenarioBookings)).currentDate = "2024-01-02" ∧
    (lStep (lStep baseL (LEv.fire baseL.midnightTimer "2024-01-02"))
        (LEv.snap "2024-01-02" scenarioBookings)).pendingTimers = [] ∧
    (lStep (lStep baseL (LEv.fire baseL.midnightTimer "2024-01-02"))
        (LEv.snap "2024-01-02" scenarioBookings)).nextTimerId
        = baseL.nextTimerId ∧
    (lStep (lStep (lStep baseL (LEv.fire baseL.midnightTimer "2024-01-02"))
        (LEv.snap "2024-01-02" scenarioBookings))
        (LEv.fetchDone scenarioBookings)).pendingTimers = [baseL.nextTimerId] ∧
    (lStep (lStep (lStep baseL (LEv.fire baseL.midnightTimer "2024-01-02"))
        (LEv.fetchDone scenarioBookings))
        (LEv.snap "2024-01-02" scenarioBookings)).pendingTimers
        = [baseL.nextTimerId] ∧
    (lStep (lStep (lStep baseL (LEv.fire baseL.midnightTimer "2024-01-02"))
        (LEv.fetchDone scenarioBookings))
        (LEv.snap "2024-01-02" scenarioBookings)).currentDate = "2024-01-02" :=
  day_boundary_race baseL scenarioBookings scenarioBookings "2024-01-02"
    rfl (by decide) rfl rfl (by decide)

/-! ## C6: each merge leaves the other subscriptions' fields alone -/

/-- C6: a bookings snapshot never changes `pendingMessages` or
`activeCustomers`; a conversations snapshot never changes `todaysBookings`,
`revenueToday` or `activeCustomers`; a clients snapshot never changes
`todaysBookings`, `revenueToday` or `pendingMessages`. -/
theorem merge_frame_conditions (s : LState) (d : String) (B : List Booking)
    (cs : List Conversation) (cl : List Client) :
    (lStep s (LEv.snap d B)).stats.pendingMessages
        = s.stats.pendingMessages ∧
    (lStep s (LEv.snap d B)).stats.activeCustomers
        = s.stats.activeCustomers ∧
    (lStep s (LEv.convSnap cs)).stats.todaysBookings
        = s.stats.todaysBookings ∧
    (lStep s (LEv.convSnap cs)).stats.revenueToday
        = s.stats.revenueToday ∧
    (lStep s (LEv.convSnap cs)).stats.activeCustomers
        = s.stats.activeCustomers ∧
    (lStep s (LEv.clientSnap cl)).stats.todaysBookings
        = s.stats.todaysBookings ∧
    (lStep s (LEv.clientSnap cl)).stats.revenueToday
        = s.stats.revenueToday ∧
    (lStep s (LEv.clientSnap cl)).stats.pendingMessages
        = s.stats.pendingMessages := by
  cases hu : s.unsubscribed <;>
    refine ⟨?_, ?_, ?_, ?_, ?_, ?_, ?_, ?_⟩ <;>
    by_cases hb : (d == s.currentDate) = true <;>
    simp [lStep, hu, hb, mergeBookingStats, setupMidnightReset,
      clearMidnightTimer]

/-! ## C7: the validation failure path -/

/-- C7: a failed fetch during the validation run leaves the latch unset and
the prior stats and publish count untouched, emits the failure toast whose
text contains the error description, returns normally, and a single effect
firing starts the fetch sequence at most once (so nothing retries by
itself). -/
theorem validation_failure_path (s : VState) (e : String) (trig : VTrigger)
    (hv : s.isValidated = false) :
    (runValidation s (Except.error e)).1.isValidated = false ∧
    (runValidation s (Except.error e)).1.stats = s.stats ∧
    (runValidation s (Except.error e)).1.publishes = s.publishes ∧
    (runValidation s (Except.error e)).2
        = Toast.failure ("System validation failed: " ++ e) ∧
    (∃ pre post : String,
      "System validation failed: " ++ e = pre ++ e ++ post) ∧
    (vStep s trig).fetchRuns ≤ s.fetchRuns + 1 := by
  refine ⟨by simp [runValidation, hv], by simp [runValidation],
    by simp [runValidation], rfl, ⟨"System validation failed: ", "", by simp⟩,
    ?_⟩
  by_cases hg : (!trig.isAdmin || !trig.user || s.isValidated) = true
  · simp [vStep, hg]
  · cases hf : trig.fetched <;> simp [vStep, hg, runValidation, hf]

/-- Witness for C7 at a concrete error. -/
theorem validation_failure_path_witness :
    (runValidation vBase (Except.error "permission-denied")).1.isValidated
        = false ∧
    (runValidation vBase (Except.error "permission-denied")).1.stats
        = vBase.stats ∧
    (runValidation vBase (Except.error "permission-denied")).1.publishes
        = vBase.publishes ∧
    (runValidation vBase (Except.error "permission-denied")).2
        = Toast.failure ("System validation failed: " ++ "permission-denied") ∧
    (∃ pre post : String,
      "System validation failed: " ++ "permission-denied"
        = pre ++ "permission-denied" ++ post) ∧
    (vStep vBase trigOk).fetchRuns ≤ vBase.fetchRuns + 1 :=
  validation_failure_path vBase "permission-denied" trigOk rfl

/-! ## C8: the pendingMessages sum -/

/-- C8: a conversations snapshot sets `pendingMessages` to the sum of
`unreadCount` over all delivered conversations (a missing count contributing
0), whatever the current date is; on the concrete scenario the sum is 8. -/
theorem pendingMessages_invariant (s : LState) (cs : List Conversation)
    (d : String) (hsub : s.unsubscribed = false) :
    (lStep s (LEv.convSnap cs)).stats.pendingMessages = claimedPending cs ∧
    (lStep { s with currentDate := d }
        (LEv.convSnap cs)).stats.pendingMessages = claimedPending cs ∧
    (lStep s (LEv.convSnap scenarioConvs)).stats.pendingMessages = 8 := by
  refine ⟨?_, ?_, ?_⟩ <;>
    simp [lStep, hsub, pendingReduce_eq_sum, claimedPending]
  decide

/-- Witness for C8 at the concrete scenario. -/
theorem pendingMessages_invariant_witness :
    (lStep baseL (LEv.convSnap scenarioConvs)).stats.pendingMessages
        = claimedPending scenarioConvs ∧
    (lStep { baseL with currentDate := "2030-06-30" }
        (LEv.convSnap scenarioConvs)).stats.pendingMessages
        = claimedPending scenarioConvs ∧
    (lStep baseL (LEv.convSnap scenarioConvs)).stats.pendingMessages = 8 :=
  pendingMessages_invariant baseL scenarioConvs "2030-06-30" rfl

/-! ## C9: order independence of a bookings update and a midnight fire -/

/-- C9: with a fixed booking set `B` and a fixed wall-clock day `d`, handling
the midnight event (timer fire plus its refetch continuation) and then a
bookings snapshot produces, up to `lastUpdate`, the same stats as handling
the snapshot first and the midnight event second. -/
theorem booking_midnight_order_independence (s : LState) (B : List Booking)
    (d : String)
    (hsub : s.unsubscribed = false)
    (hP : s.pendingTimers = [s.midnightTimer]) :
    statsNoLU (lRun s [LEv.fire s.midnightTimer d, LEv.fetchDone B,
        LEv.snap d B]).stats
      = statsNoLU (lRun s [LEv.snap d B,
          LEv.fire (lStep s (LEv.snap d B)).midnightTimer d,
          LEv.fetchDone B]).stats := by
  have hmem : s.midnightTimer ∈ s.pendingTimers := by
    rw [hP]; exact List.mem_singleton.mpr rfl
  by_cases hb : (d == s.currentDate) = true
  · have hd : d = s.currentDate := eq_of_beq hb
    simp [lRun, lStep, hsub, hb, ← hd, hmem, hP, mergeBookingStats,
      setupMidnightReset, clearMidnightTimer, statsNoLU]
  · simp only [Bool.not_eq_true] at hb
    simp [lRun, lStep, hsub, hb, hmem, hP, mergeBookingStats,
      setupMidnightReset, clearMidnightTimer, statsNoLU]

/-- Witness for C9: the two orders from the concrete fresh state across the
2024-01-02 boundary. -/
theorem booking_midnight_order_independence_witness :
    statsNoLU (lRun baseL [LEv.fire baseL.midnightTimer "2024-01-02",
        LEv.fetchDone scenarioBookings,
        LEv.snap "2024-01-02" scenarioBookings]).stats
      = statsNoLU (lRun baseL [LEv.snap "2024-01-02" scenarioBookings,
          LEv.fire (lStep baseL
            (LEv.snap "2024-01-02" scenarioBookings)).midnightTimer
            "2024-01-02",
          LEv.fetchDone scenarioBookings]).stats :=
  booking_midnight_order_independence baseL scenarioBookings "2024-01-02"
    rfl rfl

/-! ## C10: the STK-push POST handler -/

/-- C10 counterexample: a parse failure whose thrown error carries the
present-but-empty message `""` is answered with
`error: "Internal Server Error"` — not with the thrown error's message as
the claim requires for a message that is present. -/
theorem stkpush_empty_message_counterexample :
    ({ message := some "" } : JsError).message = some "" ∧
    POST (Except.error { message := some "" }) initiateOk
      = { status := 500, errorField := some "Internal Server Error"
          calledInitiate := false } ∧
    (POST (Except.error { message := some "" }) initiateOk).errorField
      ≠ some "" := by
  refine ⟨rfl, by decide, by decide⟩

/-- C10 (amended): a body with any falsy required field (including
`amount = 0`) is answered 400 with the missing-fields error and
`initiateStkPush` is never called; a parse throw or an `initiateStkPush`
throw is answered 500 whose `error` field is the thrown error's message when
present and non-empty, else `"Internal Server Error"`. -/
theorem stkpush_post_behavior (b bt : StkBody) (e : JsError)
    (f : StkBody → Except JsError String)
    (hfalsy : (!truthy b.phoneNumber || !truthy b.amount
        || !truthy b.accountRef) = true)
    (htruthy : (!truthy bt.phoneNumber || !truthy bt.amount
        || !truthy bt.accountRef) = false)
    (hthrow : f bt = Except.error e) :
    POST (Except.ok b) f
      = { status := 400
          errorField :=
            some "Missing required fields (phoneNumber, amount, accountRef)"
          calledInitiate := false } ∧
    POST (Except.error e) f
      = { status := 500, errorField := some (amendedErrorText e.message)
          calledInitiate := false } ∧
    (POST (Except.ok bt) f).status = 500 ∧
    (POST (Except.ok bt) f).errorField = some (amendedErrorText e.message) := by
  have htext : errorText e = amendedErrorText e.message := by
    cases e with
    | mk m => cases m <;> simp [errorText, amendedErrorText]
  refine ⟨by simp [POST, hfalsy], by simp [POST, htext], ?_, ?_⟩ <;>
    simp [POST, htruthy, hthrow, htext]

/-- Witness for C10 (amended): `amount = 0` is falsy and rejected with 400;
a message-less throw from the payment call is answered 500 with the default
text. -/
theorem stkpush_post_behavior_witness :
    POST (Except.ok stkZeroAmountBody) initiateThrowNoMessage
      = { status := 400
          errorField :=
            some "Missing required fields (phoneNumber, amount, accountRef)"
          calledInitiate := false } ∧
    POST (Except.error { message := none }) initiateThrowNoMessage
      = { status := 500
          errorField := some (amendedErrorText
            ({ message := none } : JsError).message)
          calledInitiate := false } ∧
    (POST (Except.ok stkTruthyBody) initiateThrowNoMessage).status = 500 ∧
    (POST (Except.ok stkTruthyBody) initiateThrowNoMessage).errorField
      = some (amendedErrorText ({ message := none } : JsError).message) :=
  stkpush_post_behavior stkZeroAmountBody stkTruthyBody
    { message := none } initiateThrowNoMessage
    (by decide) (by decide) rfl
